import Mathlib

/-!
Shallow embedding of the disk-image cache/build pipeline of podman-bootc
(`pkg/bootc/bootc_disk.go`): digest-based cache validation, disk sizing,
the build-or-reuse flow `getOrInstallImageToDisk` / `bootcInstallImageToDisk`,
image resolution `pullImage`, the `Install` driver, and the
`NewBootcDisk` singleton constructor.

External effects (filesystem, xattr syscalls, the podman bindings and the
installer container) are modelled by an explicit cache-directory state, by
boolean oracles recording the outcome of each external call, and by an event
trace listing the external operations that completed, in program order.
Machine integers (`int64` in Go) are modelled as `Int` with explicit
two's-complement wraparound where the source can overflow.
-/

namespace PodmanBootc

/-- Source constant `containerSizeToDiskSizeMultiplier = 2` (bootc_disk.go line 34). -/
def containerSizeToDiskSizeMultiplier : Int := 2

/-- Source constant `diskSizeMinimum = 10 * 1024 * 1024 * 1024` (line 35). -/
def diskSizeMinimum : Int := 10 * 1024 * 1024 * 1024

/-- Largest value of a Go `int64`. -/
def int64Max : Int := 2 ^ 63 - 1

/-- Two's-complement wraparound of Go `int64` arithmetic: reduce into
`[-2^63, 2^63)`. Go defines signed overflow as wrapping. -/
def wrap64 (x : Int) : Int := (x + 2 ^ 63) % 2 ^ 64 - 2 ^ 63

/-- Source function `align(size, align int64) int64` (lines 210-216): round
`size` up to the next multiple of `alignTo`.  Go's `%` truncates toward zero,
which agrees with `Int.emod` on the nonnegative operands this function
receives from `bootcInstallImageToDisk`; the addition wraps like `int64`. -/
def align (size alignTo : Int) : Int :=
  let rem := size % alignTo
  if rem ≠ 0 then wrap64 (size + (alignTo - rem)) else size

/-- The user's `DiskImageConfig.DiskSize` field together with the result of
`units.FromHumanSize` on it: `unset` is the empty string (the parse is never
attempted), `valid n` a string parsing to `n` bytes, `invalid` a string on
which `units.FromHumanSize` returns an error. -/
inductive SizeSpec where
  | unset
  | valid (bytes : Int)
  | invalid
  deriving DecidableEq

/-- Result of the size computation in `bootcInstallImageToDisk` (lines 225-239). -/
inductive SizeResult where
  | ok (size : Int)
  | parseError
  deriving DecidableEq

/-- The disk-size computation of `bootcInstallImageToDisk` lines 225-239:
double the image size (int64, may wrap), clamp up to `diskSizeMinimum`,
take the user override if it parses and is larger, align up to 4096. -/
def computeSize (imageSize : Int) (spec : SizeSpec) : SizeResult :=
  let size := wrap64 (imageSize * containerSizeToDiskSizeMultiplier)
  let size := if size < diskSizeMinimum then diskSizeMinimum else size
  match spec with
  | .unset => .ok (align size 4096)
  | .invalid => .parseError
  | .valid ov => .ok (align (if size < ov then ov else size) 4096)

/-- Byte content of the `user.bootc.meta` xattr, represented up to the
behavior of `encoding/json` on `diskFromContainerMeta`: `encoded d` stands
for any buffer that `json.Unmarshal` decodes to `{imageDigest: d}` (in
particular the output of `json.Marshal` for digest `d`), `malformed raw`
for any buffer on which `json.Unmarshal` fails. -/
inductive MetaBytes where
  | encoded (digest : String)
  | malformed (raw : String)
  deriving DecidableEq

/-- `json.Marshal(diskFromContainerMeta{ImageDigest: d})` (lines 259-262);
it cannot fail for this struct. -/
def encodeMeta (digest : String) : MetaBytes := .encoded digest

/-- `json.Unmarshal` into `diskFromContainerMeta` (line 197): the stored
digest on success, `none` on malformed bytes. -/
def decodeMeta : MetaBytes → Option String
  | .encoded digest => some digest
  | .malformed _ => none

/-- The file at the canonical cache path: its `user.bootc.meta` xattr
(`none` when `unix.Fgetxattr` fails because the attribute is absent) and
its virtual size in bytes. -/
structure DiskFile where
  meta : Option MetaBytes
  size : Int
  deriving DecidableEq

/-- State of the per-image cache directory: the file at the canonical path
`<Directory>/<config.DiskImage>` if any, and the number of leftover
`podman-bootc-tempdisk` temporary files. -/
structure CacheState where
  canonical : Option DiskFile
  temps : Nat
  deriving DecidableEq

/-- External operations that completed, in program order.  An event is
recorded only when the corresponding call succeeded (for `runInstall`: the
installer container ran to completion, whatever its exit code). -/
inductive Event where
  | pullEvent
  | tryLock
  | mkdirDir
  | openFile
  | createTemp
  | ftruncate
  | runInstall
  | fsetxattr (meta : MetaBytes)
  | rename
  | removeTemp
  deriving DecidableEq

/-- Errors returned by `bootcInstallImageToDisk` and `getOrInstallImageToDisk`. -/
inductive BuildErr where
  | openError
  | tempCreate
  | invalidSize
  | truncate
  | installFailed
  | setxattr
  | renameFailed
  deriving DecidableEq

/-- Go-style result of the build functions. -/
inductive BuildResult where
  | ok
  | error (e : BuildErr)
  deriving DecidableEq

/-- Outcomes of the external calls made during one run of the build flow:
`openErr` = `os.Open` fails with an error that is not `ErrNotExist`;
`createTempOk`, `ftruncateOk`, `setxattrOk`, `renameOk` = the corresponding
syscall succeeds; `installOk` = `runInstallContainer` returns nil (container
created, started, waited, exit code 0). -/
structure Env where
  openErr : Bool
  createTempOk : Bool
  ftruncateOk : Bool
  installOk : Bool
  setxattrOk : Bool
  renameOk : Bool
  deriving DecidableEq

/-- Environment in which every external call succeeds. -/
def allOk : Env := ⟨false, true, true, true, true, true⟩

/-- Result of one run of a build function: final cache-directory state,
returned error, and the trace of completed external operations. -/
structure RunResult where
  state : CacheState
  result : BuildResult
  trace : List Event
  deriving DecidableEq

/-- Outcome of the cache-check prefix of `getOrInstallImageToDisk`
(lines 176-205): `openError` = `os.Open` failed with a non-`ErrNotExist`
error (returned to the caller); `reuse` = digest matched, return nil;
`build next` = proceed to `bootcInstallImageToDisk` with the directory in
state `next` (`next` records whether `os.Remove(diskPath)` ran). -/
inductive CheckResult where
  | openError
  | reuse
  | build (next : CacheState)
  deriving DecidableEq

/-- The cache-check prefix of `getOrInstallImageToDisk` (lines 176-205),
with `digest` standing for `p.ImageId`.  The file is removed only in the
`Fgetxattr`-failed branch (line 191); the `json.Unmarshal`-failed and
digest-mismatch branches fall through to the build without removing it. -/
def cacheCheck (st : CacheState) (openErr : Bool) (digest : String) : CheckResult :=
  if openErr then .openError
  else
    match st.canonical with
    | none => .build st
    | some f =>
      match f.meta with
      | none => .build { st with canonical := none }
      | some b =>
        match decodeMeta b with
        | none => .build st
        | some d => if d = digest then .reuse else .build st

/-- `bootcInstallImageToDisk` (lines 219-277): create a temp file, compute
the target size, truncate, run the installer, stamp the xattr, rename into
place.  The `doCleanupDisk` defer that removes the temp file is registered
only after the truncate succeeds (line 248), so the create-temp-then-fail
paths before it leak the temp file (`temps + 1`). -/
def bootcInstallImageToDisk (st : CacheState) (env : Env) (digest : String)
    (imageSize : Int) (spec : SizeSpec) : RunResult :=
  if env.createTempOk = false then ⟨st, .error .tempCreate, []⟩
  else
    match computeSize imageSize spec with
    | .parseError => ⟨⟨st.canonical, st.temps + 1⟩, .error .invalidSize, [.createTemp]⟩
    | .ok size =>
      if env.ftruncateOk = false then
        ⟨⟨st.canonical, st.temps + 1⟩, .error .truncate, [.createTemp]⟩
      else if env.installOk = false then
        ⟨st, .error .installFailed, [.createTemp, .ftruncate, .runInstall, .removeTemp]⟩
      else if env.setxattrOk = false then
        ⟨st, .error .setxattr, [.createTemp, .ftruncate, .runInstall, .removeTemp]⟩
      else if env.renameOk = false then
        ⟨st, .error .renameFailed,
          [.createTemp, .ftruncate, .runInstall, .fsetxattr (encodeMeta digest), .removeTemp]⟩
      else
        ⟨⟨some ⟨some (encodeMeta digest), size⟩, st.temps⟩, .ok,
          [.createTemp, .ftruncate, .runInstall, .fsetxattr (encodeMeta digest), .rename]⟩

/-- `getOrInstallImageToDisk` (lines 175-208): the cache check followed, on
a miss, by `bootcInstallImageToDisk`.  `os.Open` is always attempted, hence
the leading `openFile` event. -/
def getOrInstallImageToDisk (st : CacheState) (env : Env) (digest : String)
    (imageSize : Int) (spec : SizeSpec) : RunResult :=
  match cacheCheck st env.openErr digest with
  | .openError => ⟨st, .error .openError, [.openFile]⟩
  | .reuse => ⟨st, .ok, [.openFile]⟩
  | .build st' =>
    let r := bootcInstallImageToDisk st' env digest imageSize spec
    ⟨r.state, r.result, .openFile :: r.trace⟩

/-- `GetSize` (lines 104-110): `os.Stat` on the canonical path; the file's
virtual size, or an error when no file is there. -/
def GetSize (st : CacheState) : Option Int := st.canonical.map (fun f => f.size)

/-- Responses of the podman image bindings during `pullImage` (lines 280-306):
whether `images.Pull` errs, the identifier list it returns, whether
`images.GetImage` errs, and the inspect report's size and `RepoTags`. -/
structure PullEnv where
  pullErr : Bool
  ids : List String
  getImageErr : Bool
  imageSize : Int
  repoTags : List String
  deriving DecidableEq

/-- Errors returned by `pullImage`. -/
inductive PullErr where
  | pullFailed
  | noIdsReturned
  | multipleIdsReturned
  | getImageFailed
  deriving DecidableEq

/-- Result of `pullImage`: on success the resolved `ImageId`, the `RepoTag`
taken from `image.RepoTags[0]`, and the image size; `panicked` models the
out-of-range index of `image.RepoTags[0]` on an empty slice (a Go runtime
panic, not a returned error). -/
inductive PullResult where
  | ok (imageId repoTag : String) (imageSize : Int)
  | error (e : PullErr)
  | panicked
  deriving DecidableEq

/-- `pullImage` (lines 280-306): pull, require exactly one returned id,
inspect, then take `ids[0]` as the digest and `image.RepoTags[0]` as the
display tag.  No check is made on the number of repo tags. -/
def pullImage (penv : PullEnv) : PullResult :=
  if penv.pullErr then .error .pullFailed
  else
    match penv.ids with
    | [] => .error .noIdsReturned
    | [imageId] =>
      if penv.getImageErr then .error .getImageFailed
      else
        match penv.repoTags with
        | [] => .panicked
        | tag :: _ => .ok imageId tag penv.imageSize
    | _ :: _ :: _ => .error .multipleIdsReturned

/-- Outcome of `Install` (lines 122-160). -/
inductive InstallOutcome where
  | ok
  | panicked
  | pullErr (e : PullErr)
  | lockError
  | cacheBusy
  | mkdirError
  | buildErr (e : BuildErr)
  deriving DecidableEq

/-- Result of one run of `Install`: final cache-directory state, outcome,
and the trace of completed external operations. -/
structure InstallRun where
  state : CacheState
  outcome : InstallOutcome
  trace : List Event
  deriving DecidableEq

/-- `Install` (lines 122-160): resolve the image, then a single
non-blocking `TryLock(Exclusive)` on the per-image cache directory
(modelled from the spec for the lock primitive itself, which lives in
`pkg/utils` outside the embedded source: one attempt, `lockAcquired` tells
whether it was free), then `MkdirAll`, then `getOrInstallImageToDisk`.
`lockErr` = `TryLock` itself returned an error; `mkdirOk` = `MkdirAll`
succeeded. -/
def Install (st : CacheState) (penv : PullEnv) (lockErr lockAcquired mkdirOk : Bool)
    (env : Env) (spec : SizeSpec) : InstallRun :=
  match pullImage penv with
  | .error e => ⟨st, .pullErr e, [.pullEvent]⟩
  | .panicked => ⟨st, .panicked, [.pullEvent]⟩
  | .ok imageId _tag imageSize =>
    if lockErr then ⟨st, .lockError, [.pullEvent, .tryLock]⟩
    else if lockAcquired = false then ⟨st, .cacheBusy, [.pullEvent, .tryLock]⟩
    else if mkdirOk = false then ⟨st, .mkdirError, [.pullEvent, .tryLock, .mkdirDir]⟩
    else
      let r := getOrInstallImageToDisk st env imageId imageSize spec
      ⟨r.state, match r.result with | .ok => .ok | .error e => .buildErr e,
        [.pullEvent, .tryLock, .mkdirDir] ++ r.trace⟩

/-- Arguments of one `NewBootcDisk` call (line 83); the `context.Context`
and `user.User` arguments are opaque and identified by tokens. -/
structure DiskArgs where
  imageNameOrId : String
  ctx : Nat
  user : Nat
  deriving DecidableEq

/-- The fields of the `BootcDisk` struct that `NewBootcDisk` populates
(lines 85-89). -/
structure BootcDisk where
  imageNameOrId : String
  ctx : Nat
  user : Nat
  deriving DecidableEq

/-- The package-level singleton cell `instance` guarded by `instanceOnce`
(lines 78-81): `sync.Once.Do` runs its function only on the first call, so
the cell is written at most once. -/
def NewBootcDisk (cell : Option BootcDisk) (a : DiskArgs) : Option BootcDisk × BootcDisk :=
  match cell with
  | some p => (some p, p)
  | none =>
    let p : BootcDisk := ⟨a.imageNameOrId, a.ctx, a.user⟩
    (some p, p)

/-- The instances returned by a sequence of `NewBootcDisk` calls threading
the singleton cell. -/
def newBootcDiskCalls (cell : Option BootcDisk) : List DiskArgs → List BootcDisk
  | [] => []
  | a :: rest =>
    let (cell', p) := NewBootcDisk cell a
    p :: newBootcDiskCalls cell' rest

/-- The spec side of claim C4, written from the spec's validity invariant
(§3): a cache entry is VALID for a digest iff the file exists, its metadata
attribute is present, parses successfully, and the stored digest equals the
current one. -/
def cacheEntryValid (st : CacheState) (digest : String) : Bool :=
  match st.canonical with
  | none => false
  | some f =>
    match f.meta with
    | none => false
    | some b =>
      match decodeMeta b with
      | none => false
      | some d => decide (d = digest)

/-- A cache file whose metadata attribute is absent or fails to decode. -/
def metaUnreadable (f : DiskFile) : Bool :=
  match f.meta with
  | none => true
  | some b => (decodeMeta b).isNone

theorem wrap64_eq_of_bounds {x : Int} (h1 : -(2 ^ 63) ≤ x) (h2 : x < 2 ^ 63) :
    wrap64 x = x := by
  unfold wrap64
  omega

theorem align_4096_spec (size : Int) (h0 : 0 ≤ size) (h1 : size ≤ int64Max - 4095) :
    size ≤ align size 4096 ∧ align size 4096 % 4096 = 0 ∧ align size 4096 ≤ int64Max := by
  unfold align wrap64 int64Max at *
  refine ⟨?_, ?_, ?_⟩ <;> · simp only []; split <;> omega

/-- The candidate size after doubling (with `int64` wraparound) and
clamping to the 10 GiB minimum, as computed in `computeSize`. -/
def baseSize (imageSize : Int) : Int :=
  if wrap64 (imageSize * containerSizeToDiskSizeMultiplier) < diskSizeMinimum
  then diskSizeMinimum
  else wrap64 (imageSize * containerSizeToDiskSizeMultiplier)

/-- The candidate size after additionally taking a parsed user override
when it is larger, as computed in `computeSize`. -/
def overrideSize (imageSize ov : Int) : Int :=
  if baseSize imageSize < ov then ov else baseSize imageSize

theorem newBootcDiskCalls_some (p : BootcDisk) (l : List DiskArgs) :
    newBootcDiskCalls (some p) l = List.replicate l.length p := by
  induction l with
  | nil => rfl
  | cons a rest ih => simp [newBootcDiskCalls, NewBootcDisk, ih, List.replicate]

/-- C1: the claim as stated is false on the code.  With an existing cache
file stamped for digest `sha256:d1`, a cache check for the different digest
`sha256:d2` proceeds to Building with the stale file still in place (not
deleted), and likewise when the stored metadata fails to decode: in
`getOrInstallImageToDisk` only the missing-xattr branch calls
`os.Remove`. -/
theorem c1_counterexample :
    cacheCheck ⟨some ⟨some (MetaBytes.encoded "sha256:d1"), 10⟩, 0⟩ false "sha256:d2"
      = CheckResult.build ⟨some ⟨some (MetaBytes.encoded "sha256:d1"), 10⟩, 0⟩
    ∧ cacheCheck ⟨some ⟨some (MetaBytes.malformed "junk"), 10⟩, 0⟩ false "sha256:d2"
      = CheckResult.build ⟨some ⟨some (MetaBytes.malformed "junk"), 10⟩, 0⟩
    ∧ (⟨some ⟨some (MetaBytes.encoded "sha256:d1"), 10⟩, 0⟩ : CacheState).canonical ≠ none := by
  decide

/-- C1 (amended): in the CacheCheck step the stale cache file is deleted
only when reading the metadata attribute itself fails (attribute missing);
when the attribute decodes unsuccessfully or the stored digest mismatches,
the stale file is left in place and the flow proceeds to Building. -/
theorem c1_stale_deletion_only_on_missing_xattr (st : CacheState) (f : DiskFile)
    (d : String) (hm : st.canonical = some f) :
    (f.meta = none → cacheCheck st false d = .build ⟨none, st.temps⟩)
    ∧ (∀ b, f.meta = some b → decodeMeta b = none → cacheCheck st false d = .build st)
    ∧ (∀ b d', f.meta = some b → decodeMeta b = some d' → d' ≠ d →
        cacheCheck st false d = .build st) := by
  obtain ⟨c, t⟩ := st
  refine ⟨fun h => ?_, fun b hb hdec => ?_, fun b d' hb hdec hne => ?_⟩
  · simp only at hm
    simp [cacheCheck, hm, h]
  · simp only at hm
    simp [cacheCheck, hm, hb, hdec]
  · simp only at hm
    simp [cacheCheck, hm, hb, hdec, hne]

/-- Witness for C1 (amended) at a concrete state: a file with no metadata
attribute is removed before Building. -/
theorem c1_witness :
    cacheCheck ⟨some ⟨none, 7⟩, 2⟩ false "sha256:d" = CheckResult.build ⟨none, 2⟩ :=
  (c1_stale_deletion_only_on_missing_xattr ⟨some ⟨none, 7⟩, 2⟩ ⟨none, 7⟩ "sha256:d" rfl).1 rfl

/-- C4: the cache-reuse decision depends solely on the metadata attribute:
the CacheCheck step returns Reuse iff the file exists, its attribute is
present, decodes, and the stored digest equals the current one; a file with
a missing or unparsable attribute always sends the flow to Building (either
after removing the file or leaving it in place), never to an error. -/
theorem c4_reuse_iff_valid_metadata (st : CacheState) (digest : String) :
    (cacheCheck st false digest = .reuse ↔ cacheEntryValid st digest = true)
    ∧ (∀ f, st.canonical = some f → metaUnreadable f = true →
        (cacheCheck st false digest = .build st
          ∨ cacheCheck st false digest = .build ⟨none, st.temps⟩)) := by
  obtain ⟨c, t⟩ := st
  cases c with
  | none => simp [cacheCheck, cacheEntryValid]
  | some f =>
    obtain ⟨m, sz⟩ := f
    cases m with
    | none =>
      refine ⟨by simp [cacheCheck, cacheEntryValid], ?_⟩
      intro f hf _
      simp only [Option.some_inj] at hf
      subst hf
      simp [cacheCheck]
    | some b =>
      cases b with
      | malformed raw =>
        refine ⟨by simp [cacheCheck, cacheEntryValid, decodeMeta], ?_⟩
        intro f hf _
        simp only [Option.some_inj] at hf
        subst hf
        simp [cacheCheck, decodeMeta]
      | encoded d =>
        refine ⟨?_, ?_⟩
        · by_cases hd : d = digest
          · subst hd
            simp [cacheCheck, cacheEntryValid, decodeMeta]
          · simp [cacheCheck, cacheEntryValid, decodeMeta, hd]
        · intro f hf hunread
          simp only [Option.some_inj] at hf
          subst hf
          simp [metaUnreadable, decodeMeta] at hunread

/-- Witness for C4 at a concrete state: a file with unparsable metadata goes
to Building. -/
theorem c4_witness :
    cacheCheck ⟨some ⟨some (MetaBytes.malformed "x"), 3⟩, 0⟩ false "sha256:d"
        = CheckResult.build ⟨some ⟨some (MetaBytes.malformed "x"), 3⟩, 0⟩
    ∨ cacheCheck ⟨some ⟨some (MetaBytes.malformed "x"), 3⟩, 0⟩ false "sha256:d"
        = CheckResult.build ⟨none, 0⟩ :=
  (c4_reuse_iff_valid_metadata ⟨some ⟨some (MetaBytes.malformed "x"), 3⟩, 0⟩ "sha256:d").2
    ⟨some (MetaBytes.malformed "x"), 3⟩ rfl (by decide)

/-- C9: the claim as stated is false on the code: with exactly one resolved
id but two repo tags, `pullImage` succeeds (taking the first tag) instead of
failing; no exactly-one-repo-tag check exists. -/
theorem c9_counterexample :
    pullImage ⟨false, ["sha256:abc"], false, 100, ["t1", "t2"]⟩
      = PullResult.ok "sha256:abc" "t1" 100
    ∧ (["t1", "t2"] : List String).length ≠ 1 := by
  decide

/-- C9 (amended): `pullImage` requires exactly one resolved id — zero ids or
more than one id is a hard error — but places no requirement on the number
of repo tags: success always uses the first repo tag, and an image with no
repo tags causes an index-out-of-range panic rather than a returned
error. -/
theorem c9_exactly_one_id_first_tag (penv : PullEnv) :
    (penv.pullErr = false → penv.ids = [] → pullImage penv = .error .noIdsReturned)
    ∧ (penv.pullErr = false → 2 ≤ penv.ids.length →
        pullImage penv = .error .multipleIdsReturned)
    ∧ (∀ i t s, pullImage penv = .ok i t s →
        penv.ids = [i] ∧ penv.repoTags.head? = some t ∧ s = penv.imageSize)
    ∧ (penv.pullErr = false → penv.getImageErr = false → ∀ i, penv.ids = [i] →
        penv.repoTags = [] → pullImage penv = .panicked) := by
  obtain ⟨pe, ids, ge, sz, tags⟩ := penv
  refine ⟨?_, ?_, ?_, ?_⟩
  · intro h1 h2
    subst h1; subst h2
    simp [pullImage]
  · intro h1 h2
    subst h1
    match ids, h2 with
    | a :: b :: rest, _ => simp [pullImage]
  · intro i t s h
    cases pe with
    | true => simp [pullImage] at h
    | false =>
      match ids with
      | [] => simp [pullImage] at h
      | [a] =>
        cases ge with
        | true => simp [pullImage] at h
        | false =>
          match tags with
          | [] => simp [pullImage] at h
          | tg :: tl =>
            simp [pullImage] at h
            obtain ⟨hi, ht, hs⟩ := h
            subst hi; subst ht; subst hs
            simp
      | a :: b :: rest => simp [pullImage] at h
  · intro h1 h2 i h3 h4
    subst h1; subst h2; subst h3; subst h4
    simp [pullImage]

/-- Witness for C9 (amended) at a concrete input: an empty id list is a hard
error. -/
theorem c9_witness :
    pullImage ⟨false, [], false, 0, []⟩ = PullResult.error .noIdsReturned :=
  (c9_exactly_one_id_first_tag ⟨false, [], false, 0, []⟩).1 rfl rfl

/-- C10: `NewBootcDisk` is a process-wide singleton ignoring later
arguments: starting from the empty cell, every call of a sequence returns
the instance holding the first call's image name, context, and user. -/
theorem c10_singleton_ignores_later_args (a : DiskArgs) (rest : List DiskArgs) :
    newBootcDiskCalls none (a :: rest)
      = List.replicate (rest.length + 1) ⟨a.imageNameOrId, a.ctx, a.user⟩ := by
  simp [newBootcDiskCalls, NewBootcDisk, newBootcDiskCalls_some, List.replicate]

/-- C3: the claim as stated is false on the code: at image size `2^62`
(within `int64` range) the doubling `imageData.Size * 2` wraps around to
`-2^63`, the clamp raises it to the 10 GiB minimum, and the returned size
`10737418240` is far below twice the image size. -/
theorem c3_counterexample :
    computeSize 4611686018427387904 SizeSpec.unset = SizeResult.ok diskSizeMinimum
    ∧ ¬ (4611686018427387904 * containerSizeToDiskSizeMultiplier
          ≤ (diskSizeMinimum : Int)) := by
  constructor
  · rfl
  · decide

/-- C3 (amended): for every non-negative image size whose doubling stays in
`int64` range with room for the final alignment (`2 * imageSize ≤ 2^63 - 1 -
4095`), `computeSize` returns a size that is at least 10 GiB, at least twice
the image size, at least any successfully parsed user override in the same
range, and a multiple of 4096; determinism holds because `computeSize` is a
pure function of its arguments. -/
theorem c3_size_bounds (imageSize : Int) (h0 : 0 ≤ imageSize)
    (h1 : imageSize * containerSizeToDiskSizeMultiplier ≤ int64Max - 4095) :
    (∃ s, computeSize imageSize .unset = .ok s ∧ diskSizeMinimum ≤ s
      ∧ imageSize * containerSizeToDiskSizeMultiplier ≤ s ∧ (4096 : Int) ∣ s
      ∧ s ≤ int64Max)
    ∧ (∀ ov, 0 ≤ ov → ov ≤ int64Max - 4095 →
        ∃ s, computeSize imageSize (.valid ov) = .ok s ∧ diskSizeMinimum ≤ s
          ∧ imageSize * containerSizeToDiskSizeMultiplier ≤ s ∧ ov ≤ s
          ∧ (4096 : Int) ∣ s ∧ s ≤ int64Max) := by
  have hmul : containerSizeToDiskSizeMultiplier = 2 := rfl
  have hw : wrap64 (imageSize * containerSizeToDiskSizeMultiplier)
      = imageSize * containerSizeToDiskSizeMultiplier := by
    apply wrap64_eq_of_bounds
    · rw [hmul]; unfold int64Max at h1; omega
    · rw [hmul] at h1 ⊢; unfold int64Max at h1; omega
  constructor
  · have hb0 : 0 ≤ baseSize imageSize ∧ baseSize imageSize ≤ int64Max - 4095
        ∧ diskSizeMinimum ≤ baseSize imageSize
        ∧ imageSize * containerSizeToDiskSizeMultiplier ≤ baseSize imageSize := by
      unfold baseSize
      rw [hw, hmul]
      rw [hmul] at h1
      unfold int64Max diskSizeMinimum at *
      split <;> omega
    have hal := align_4096_spec (baseSize imageSize) hb0.1 hb0.2.1
    exact ⟨align (baseSize imageSize) 4096, rfl, le_trans hb0.2.2.1 hal.1,
      le_trans hb0.2.2.2 hal.1, Int.dvd_of_emod_eq_zero hal.2.1, hal.2.2⟩
  · intro ov hov0 hov1
    have hb0 : 0 ≤ overrideSize imageSize ov ∧ overrideSize imageSize ov ≤ int64Max - 4095
        ∧ diskSizeMinimum ≤ overrideSize imageSize ov
        ∧ imageSize * containerSizeToDiskSizeMultiplier ≤ overrideSize imageSize ov
        ∧ ov ≤ overrideSize imageSize ov := by
      unfold overrideSize baseSize
      rw [hw, hmul]
      rw [hmul] at h1
      unfold int64Max diskSizeMinimum at *
      split <;> split <;> omega
    have hal := align_4096_spec (overrideSize imageSize ov) hb0.1 hb0.2.1
    exact ⟨align (overrideSize imageSize ov) 4096, rfl, le_trans hb0.2.2.1 hal.1,
      le_trans hb0.2.2.2.1 hal.1, le_trans hb0.2.2.2.2 hal.1,
      Int.dvd_of_emod_eq_zero hal.2.1, hal.2.2⟩

/-- Witness for C3 (amended) at a concrete input: image size 5 GiB, override
parsing to 20 GB, yields exactly the aligned override. -/
theorem c3_witness :
    0 ≤ (5368709120 : Int)
    ∧ (∃ s, computeSize 5368709120 (.valid 20000000000) = .ok s
        ∧ diskSizeMinimum ≤ s ∧ 5368709120 * containerSizeToDiskSizeMultiplier ≤ s
        ∧ (20000000000 : Int) ≤ s ∧ (4096 : Int) ∣ s ∧ s ≤ int64Max) :=
  ⟨by decide,
    (c3_size_bounds 5368709120 (by decide) (by decide)).2 20000000000
      (by decide) (by decide)⟩

theorem sublist_xattr_rename (m : MetaBytes) :
    List.Sublist [Event.fsetxattr m, Event.rename]
      [Event.createTemp, Event.ftruncate, Event.runInstall, Event.fsetxattr m,
        Event.rename] :=
  List.sublist_append_right [Event.createTemp, Event.ftruncate, Event.runInstall]
    [Event.fsetxattr m, Event.rename]

/-- C2: in `bootcInstallImageToDisk` the rename is reached only after the
metadata attribute carrying the current digest was successfully written on
the temporary file (the write precedes the rename in every trace containing
a rename, and such a run returns success); if the attribute write or the
rename fails, the temporary file is removed by the cleanup defer, the error
is surfaced, and the canonical path is left unchanged. -/
theorem c2_rename_only_after_xattr (st : CacheState) (env : Env) (digest : String)
    (imageSize : Int) (spec : SizeSpec) :
    (Event.rename ∈ (bootcInstallImageToDisk st env digest imageSize spec).trace →
      List.Sublist [Event.fsetxattr (encodeMeta digest), Event.rename]
          (bootcInstallImageToDisk st env digest imageSize spec).trace
        ∧ (bootcInstallImageToDisk st env digest imageSize spec).result = .ok)
    ∧ (env.createTempOk = true → env.ftruncateOk = true → env.installOk = true →
        spec ≠ .invalid → env.setxattrOk = false →
        bootcInstallImageToDisk st env digest imageSize spec
          = ⟨st, .error .setxattr,
              [.createTemp, .ftruncate, .runInstall, .removeTemp]⟩)
    ∧ (env.createTempOk = true → env.ftruncateOk = true → env.installOk = true →
        spec ≠ .invalid → env.setxattrOk = true → env.renameOk = false →
        bootcInstallImageToDisk st env digest imageSize spec
          = ⟨st, .error .renameFailed,
              [.createTemp, .ftruncate, .runInstall, .fsetxattr (encodeMeta digest),
                .removeTemp]⟩) := by
  obtain ⟨oe, ct, ft, io, sx, rn⟩ := env
  cases ct <;> cases ft <;> cases io <;> cases sx <;> cases rn <;> cases spec <;>
    simp_all [bootcInstallImageToDisk, computeSize, sublist_xattr_rename]

/-- Witness for C2 at a concrete input: a failing attribute write removes
the temporary file, surfaces the error, and publishes nothing. -/
theorem c2_witness :
    bootcInstallImageToDisk ⟨none, 0⟩ ⟨false, true, true, true, false, true⟩
        "sha256:d" 5 .unset
      = ⟨⟨none, 0⟩, .error .setxattr,
          [.createTemp, .ftruncate, .runInstall, .removeTemp]⟩ :=
  (c2_rename_only_after_xattr ⟨none, 0⟩ ⟨false, true, true, true, false, true⟩
    "sha256:d" 5 .unset).2.1 rfl rfl rfl (by decide) rfl

/-- C6: the claim as stated is false on the code: when the cache held a
stale entry for digest `sha256:d1` and the installer fails during the
rebuild for `sha256:d2`, a file does remain at the canonical cache path
afterwards (the stale one was never deleted on the mismatch path). -/
theorem c6_counterexample :
    (getOrInstallImageToDisk ⟨some ⟨some (MetaBytes.encoded "sha256:d1"), 10⟩, 0⟩
        ⟨false, true, true, false, true, true⟩ "sha256:d2" 5 .unset).result
      = .error .installFailed
    ∧ (getOrInstallImageToDisk ⟨some ⟨some (MetaBytes.encoded "sha256:d1"), 10⟩, 0⟩
        ⟨false, true, true, false, true, true⟩ "sha256:d2" 5 .unset).state.canonical
      ≠ none := by
  decide

/-- C6 (amended): whenever the installer session fails, the temporary file
is deleted, the canonical path is left exactly as it was when the build
started (so nothing is published, and it is empty afterwards only when it
was empty before — a stale entry from the digest-mismatch path remains),
and the surfaced error is the installation-failure wrap. -/
theorem c6_install_failure_cleanup (st : CacheState) (env : Env) (digest : String)
    (imageSize : Int) (spec : SizeSpec) (hct : env.createTempOk = true)
    (hft : env.ftruncateOk = true) (hsp : spec ≠ .invalid)
    (hio : env.installOk = false) :
    bootcInstallImageToDisk st env digest imageSize spec
      = ⟨st, .error .installFailed,
          [.createTemp, .ftruncate, .runInstall, .removeTemp]⟩
    ∧ (st.canonical = none →
        (bootcInstallImageToDisk st env digest imageSize spec).state.canonical
          = none) := by
  obtain ⟨oe, ct, ft, io, sx, rn⟩ := env
  cases spec <;> simp_all [bootcInstallImageToDisk, computeSize]

/-- Witness for C6 (amended) at a concrete input: first build (empty cache),
installer fails, nothing remains. -/
theorem c6_witness :
    bootcInstallImageToDisk ⟨none, 0⟩ ⟨false, true, true, false, true, true⟩
        "sha256:d" 5 .unset
      = ⟨⟨none, 0⟩, .error .installFailed,
          [.createTemp, .ftruncate, .runInstall, .removeTemp]⟩ :=
  (c6_install_failure_cleanup ⟨none, 0⟩ ⟨false, true, true, false, true, true⟩
    "sha256:d" 5 .unset rfl rfl (by decide) rfl).1

/-- C7: the claim as stated is false on the code: on an unparsable disk-size
override the build does abort before any truncate or installer start, but it
leaves a partial side effect behind — the already-created temporary file is
never removed on this early-return path (the cleanup defer is registered
only after the truncate). -/
theorem c7_counterexample :
    bootcInstallImageToDisk ⟨none, 0⟩ allOk "sha256:d" 5 .invalid
      = ⟨⟨none, 1⟩, .error .invalidSize, [.createTemp]⟩
    ∧ Event.removeTemp ∉
        (bootcInstallImageToDisk ⟨none, 0⟩ allOk "sha256:d" 5 .invalid).trace
    ∧ (bootcInstallImageToDisk ⟨none, 0⟩ allOk "sha256:d" 5 .invalid).state.temps
      ≠ 0 := by
  decide

/-- C7 (amended): if the user's disk-size override fails to parse, the build
aborts with the hard parse error before any file is truncated and before any
installer process is started, and the canonical cache path is untouched;
however the already-created empty temporary file is left behind in the cache
directory rather than removed. -/
theorem c7_invalid_size_fails_fast (st : CacheState) (env : Env) (digest : String)
    (imageSize : Int) (hct : env.createTempOk = true) :
    bootcInstallImageToDisk st env digest imageSize .invalid
      = ⟨⟨st.canonical, st.temps + 1⟩, .error .invalidSize, [.createTemp]⟩
    ∧ Event.ftruncate ∉
        (bootcInstallImageToDisk st env digest imageSize .invalid).trace
    ∧ Event.runInstall ∉
        (bootcInstallImageToDisk st env digest imageSize .invalid).trace
    ∧ (bootcInstallImageToDisk st env digest imageSize .invalid).state.canonical
      = st.canonical := by
  obtain ⟨oe, ct, ft, io, sx, rn⟩ := env
  simp_all [bootcInstallImageToDisk, computeSize]

/-- Witness for C7 (amended) at a concrete input. -/
theorem c7_witness :
    bootcInstallImageToDisk ⟨none, 3⟩ allOk "sha256:d" 5 .invalid
      = ⟨⟨none, 4⟩, .error .invalidSize, [.createTemp]⟩ :=
  (c7_invalid_size_fails_fast ⟨none, 3⟩ allOk "sha256:d" 5 rfl).1

/-- C5: building twice in a row for the same digest performs the external
install exactly once: if a first run in a failure-free environment returned
success and actually ran the installer, then the second run for the same
digest takes the Reuse path — its trace is just the open of the existing
file, with no installer invocation and no temporary file — and it leaves the
state unchanged, exposing the same canonical file (hence the same path and
the same size) as the first run. -/
theorem c5_second_build_reuses (st : CacheState) (digest : String) (imageSize : Int)
    (spec : SizeSpec)
    (h1 : (getOrInstallImageToDisk st allOk digest imageSize spec).result = .ok)
    (h2 : Event.runInstall ∈ (getOrInstallImageToDisk st allOk digest imageSize spec).trace) :
    (getOrInstallImageToDisk (getOrInstallImageToDisk st allOk digest imageSize spec).state
        allOk digest imageSize spec).result = .ok
    ∧ (getOrInstallImageToDisk (getOrInstallImageToDisk st allOk digest imageSize spec).state
        allOk digest imageSize spec).trace = [Event.openFile]
    ∧ (getOrInstallImageToDisk (getOrInstallImageToDisk st allOk digest imageSize spec).state
        allOk digest imageSize spec).state
      = (getOrInstallImageToDisk st allOk digest imageSize spec).state
    ∧ GetSize (getOrInstallImageToDisk (getOrInstallImageToDisk st allOk digest imageSize
        spec).state allOk digest imageSize spec).state
      = GetSize (getOrInstallImageToDisk st allOk digest imageSize spec).state
    ∧ (getOrInstallImageToDisk st allOk digest imageSize spec).trace.count Event.runInstall
      = 1 := by
  obtain ⟨c, t⟩ := st
  cases c with
  | none =>
    cases spec <;>
      simp_all [getOrInstallImageToDisk, cacheCheck, bootcInstallImageToDisk,
        computeSize, allOk, decodeMeta, encodeMeta]
  | some f =>
    obtain ⟨m, sz⟩ := f
    cases m with
    | none =>
      cases spec <;>
        simp_all [getOrInstallImageToDisk, cacheCheck, bootcInstallImageToDisk,
          computeSize, allOk, decodeMeta, encodeMeta]
    | some b =>
      cases b with
      | malformed raw =>
        cases spec <;>
          simp_all [getOrInstallImageToDisk, cacheCheck, bootcInstallImageToDisk,
            computeSize, allOk, decodeMeta, encodeMeta]
      | encoded d =>
        by_cases hd : d = digest
        · subst hd
          simp_all [getOrInstallImageToDisk, cacheCheck, bootcInstallImageToDisk,
            computeSize, allOk, decodeMeta, encodeMeta]
        · cases spec <;>
            simp_all [getOrInstallImageToDisk, cacheCheck, bootcInstallImageToDisk,
              computeSize, allOk, decodeMeta, encodeMeta, hd]

/-- Witness for C5 at a concrete input: the first build from an empty cache
publishes, the second call reuses. -/
theorem c5_witness :
    (getOrInstallImageToDisk (getOrInstallImageToDisk ⟨none, 0⟩ allOk "sha256:d" 5
        .unset).state allOk "sha256:d" 5 .unset).result = .ok
    ∧ (getOrInstallImageToDisk (getOrInstallImageToDisk ⟨none, 0⟩ allOk "sha256:d" 5
        .unset).state allOk "sha256:d" 5 .unset).trace = [Event.openFile]
    ∧ (getOrInstallImageToDisk (getOrInstallImageToDisk ⟨none, 0⟩ allOk "sha256:d" 5
        .unset).state allOk "sha256:d" 5 .unset).state
      = (getOrInstallImageToDisk ⟨none, 0⟩ allOk "sha256:d" 5 .unset).state
    ∧ GetSize (getOrInstallImageToDisk (getOrInstallImageToDisk ⟨none, 0⟩ allOk
        "sha256:d" 5 .unset).state allOk "sha256:d" 5 .unset).state
      = GetSize (getOrInstallImageToDisk ⟨none, 0⟩ allOk "sha256:d" 5 .unset).state
    ∧ (getOrInstallImageToDisk ⟨none, 0⟩ allOk "sha256:d" 5 .unset).trace.count
        Event.runInstall = 1 :=
  c5_second_build_reuses ⟨none, 0⟩ "sha256:d" 5 .unset (by decide) (by decide)

/-- C8: when the single non-blocking `TryLock` attempt reports the lock as
already held, `Install` aborts with the lock-busy error after exactly one
lock attempt, performing no cache check (no open of the cache file), no
build (no temporary file, no installer), and leaving the cache state
unchanged. -/
theorem c8_lock_busy_aborts (st : CacheState) (penv : PullEnv) (mkdirOk : Bool)
    (env : Env) (spec : SizeSpec) (i t : String) (s : Int)
    (hp : pullImage penv = .ok i t s) :
    Install st penv false false mkdirOk env spec
      = ⟨st, .cacheBusy, [.pullEvent, .tryLock]⟩
    ∧ (Install st penv false false mkdirOk env spec).trace.count Event.tryLock = 1
    ∧ Event.openFile ∉ (Install st penv false false mkdirOk env spec).trace
    ∧ Event.createTemp ∉ (Install st penv false false mkdirOk env spec).trace
    ∧ Event.runInstall ∉ (Install st penv false false mkdirOk env spec).trace
    ∧ (Install st penv false false mkdirOk env spec).state = st := by
  have hI : Install st penv false false mkdirOk env spec
      = ⟨st, .cacheBusy, [.pullEvent, .tryLock]⟩ := by
    simp [Install, hp]
  rw [hI]
  refine ⟨rfl, ?_, ?_, ?_, ?_, rfl⟩
  · show List.count Event.tryLock [Event.pullEvent, Event.tryLock] = 1
    decide
  · show Event.openFile ∉ [Event.pullEvent, Event.tryLock]
    decide
  · show Event.createTemp ∉ [Event.pullEvent, Event.tryLock]
    decide
  · show Event.runInstall ∉ [Event.pullEvent, Event.tryLock]
    decide

/-- Witness for C8 at a concrete input. -/
theorem c8_witness :
    Install ⟨none, 0⟩ ⟨false, ["sha256:abc"], false, 5, ["t"]⟩ false false true allOk
        .unset
      = ⟨⟨none, 0⟩, .cacheBusy, [.pullEvent, .tryLock]⟩ :=
  (c8_lock_busy_aborts ⟨none, 0⟩ ⟨false, ["sha256:abc"], false, 5, ["t"]⟩ true allOk
    .unset "sha256:abc" "t" 5 rfl).1

end PodmanBootc
